import Mathlib

/-!
Shallow embedding of the ORCID Analytics dashboard's data-ingestion and
aggregation pipeline, and proofs of the specification's claims about it.

Source layout (TypeScript):
  * `types.ts`: the data model (`OrcidWork`, `OrcidProfileData`, `AnalysisStats`).
  * `services/orcidService.ts`: `generateMockData`, `fetchOrcidData`, `parseCsvFile`.
  * `App.tsx`: the `stats` aggregation (`useMemo`) and `handleBatchAnalyze`.
  * `components/ChatBot.tsx`: the system-instruction (chat-context) builder.

Modelling conventions:
  * JS `null`/`undefined` values are `Option.none`; optional chaining `a?.b`
    becomes `Option` operations.
  * JS numbers are modelled as `Int`/`Nat` where the code only produces
    integers, and as `ℚ` for the one true division (the average); float
    rounding is not modelled.
  * JS objects used as counting dictionaries (`Record<K, number>`) are
    modelled as association lists whose keys appear in insertion order
    (first occurrence order), which matches `Object.entries` enumeration
    for the non-numeric string keys this application produces.
  * Core `String` functions that do not reduce inside the kernel
    (`trim`, `toLowerCase`, `split`, `replace`) are re-implemented over
    `String.data` so that concrete runs can be checked by `decide`.
-/

/-- Publication record (`types.ts` / `OrcidWork`). The TS declaration types
`type` as `string`, but values that reach the aggregator at runtime can be
`null`/`undefined` (the spec's own aggregation example uses a `null` type),
so `type` is `Option String`; `none` models JS `null`/`undefined`.
`year` is `number | null`, modelled as `Option Int`. The unused optional
`journal` field is omitted. -/
structure OrcidWork where
  title : String
  year : Option Int
  type : Option String
  putCode : String
  doi : Option String
  deriving DecidableEq, Repr, Inhabited

/-- Researcher profile (`types.ts` / `OrcidProfileData`). -/
structure OrcidProfileData where
  orcidId : String
  fullName : String
  works : List OrcidWork
  deriving DecidableEq, Repr, Inhabited

/-- Aggregate statistics (`types.ts` / `AnalysisStats`). The histogram entry
objects `{year, count}` and `{type, count}` are modelled as pairs, matching
the spec's own "(year, count)" notation. `avgPublications` is a rational. -/
structure AnalysisStats where
  totalResearchers : Nat
  totalPublications : Nat
  avgPublications : ℚ
  publicationsByYear : List (Int × Nat)
  publicationsByType : List (String × Nat)
  processedProfiles : List OrcidProfileData
  deriving DecidableEq, Repr

/-! JS string primitives, re-implemented over character lists so they
evaluate inside the kernel. -/

/-- JS `String.prototype.split` with a one-character separator. Like JS
`split`, it returns `[""]` on the empty string and keeps empty fields. -/
def jsSplit (sep : Char) (s : String) : List String :=
  (s.data.splitOn sep).map String.mk

/-- JS `String.prototype.trim`: strip leading and trailing whitespace. -/
def jsTrim (s : String) : String :=
  String.mk (((s.data.dropWhile Char.isWhitespace).reverse.dropWhile Char.isWhitespace).reverse)

/-- JS `String.prototype.toLowerCase` (ASCII-adequate model). -/
def jsToLower (s : String) : String :=
  String.mk (s.data.map Char.toLower)

/-- Replace every underscore by a space: the source's `replace(/_/g, ' ')`. -/
def replaceUnderscores (s : String) : String :=
  String.mk (s.data.map (fun c => if c = '_' then ' ' else c))

/-- Strip a single trailing carriage return, used to model splitting on the
regular expression `/\r?\n/` as splitting on `'\n'` plus dropping the
optional `'\r'` glued to the end of each piece. -/
def dropTrailingCarriage (s : String) : String :=
  match s.data.reverse with
  | '\r' :: rest => String.mk rest.reverse
  | _ => s

/-- The source's `text.split(/\r?\n/)`. -/
def splitLines (text : String) : List String :=
  (jsSplit '\n' text).map dropTrailingCarriage

/-- Accumulate a decimal digit list into a natural number. -/
def digitsToNat (acc : Nat) : List Char → Nat
  | [] => acc
  | c :: cs => digitsToNat (acc * 10 + (c.toNat - '0'.toNat)) cs

/-- JS `parseInt(s, 10)`: skip leading whitespace, read an optional sign and
then a maximal run of decimal digits; `none` models the `NaN` result when no
digit is found. (`NaN` and `null` publication years are conflated: both are
falsy in every place the application inspects a year.) -/
def jsParseInt (s : String) : Option Int :=
  let parseDigits := fun (neg : Bool) (cs : List Char) =>
    let ds := cs.takeWhile Char.isDigit
    if ds.isEmpty then (none : Option Int)
    else some (if neg then -(digitsToNat 0 ds : Int) else (digitsToNat 0 ds : Int))
  match s.data.dropWhile Char.isWhitespace with
  | '-' :: rest => parseDigits true rest
  | '+' :: rest => parseDigits false rest
  | cs => parseDigits false cs

/-! Record Fetcher (`services/orcidService.ts`). -/

/-- The fixed year pool of `generateMockData`. -/
def mockYears : List Int := [2018, 2019, 2020, 2021, 2022, 2023, 2024]

/-- The fixed type pool of `generateMockData`. -/
def mockTypes : List String := ["JOURNAL_ARTICLE", "CONFERENCE_PAPER", "BOOK_CHAPTER", "BOOK"]

/-- One source of pseudo-randomness for `generateMockData`. The source draws
`Math.floor(Math.random() * 20)` for the length (a value in `0..19`) and,
per work, `Math.floor(Math.random() * 7)` and `Math.floor(Math.random() * 4)`
to index the year and type pools; each draw is modelled as an arbitrary
bounded choice. -/
structure MockRand where
  lenChoice : Fin 20
  yearChoice : Nat → Fin 7
  typeChoice : Nat → Fin 4

/-- The source's `generateMockData`: a synthetic profile with between 5 and
24 works, each with a year from `mockYears` and a type from `mockTypes`. -/
def generateMockData (r : MockRand) (orcid : String) : OrcidProfileData :=
  let works : List OrcidWork := (List.range (r.lenChoice.val + 5)).map (fun i =>
    { title := "Sample Research Publication " ++ toString (i + 1) ++ " for " ++ orcid
      year := some (mockYears.get ⟨(r.yearChoice i).val, (r.yearChoice i).isLt⟩)
      type := some (mockTypes.get ⟨(r.typeChoice i).val, (r.typeChoice i).isLt⟩)
      putCode := "mock-" ++ toString i
      doi := some ("10.1000/mock." ++ toString i) })
  { orcidId := orcid
    fullName := "Researcher " ++ orcid.take 4
    works := works }

/-- An `external-id` entry of the registry response. -/
structure ExternalId where
  idType : String
  idValue : String
  deriving DecidableEq, Repr, Inhabited

/-- One `work-summary` object of the registry response: each field models
the corresponding optionally-chained access in the source
(`title?.title?.value`, `publication-date?.year?.value`, `type`,
`put-code`, `external-ids?.external-id`). -/
structure WorkSummary where
  title : Option String
  pubYear : Option String
  type : Option String
  putCode : String
  externalIds : Option (List ExternalId)
  deriving DecidableEq, Repr, Inhabited

/-- A response "work group"; `workSummary` models the `work-summary` array,
which the source indexes with `[0]` without a guard. -/
structure WorkGroup where
  workSummary : Option (List WorkSummary)
  deriving DecidableEq, Repr, Inhabited

/-- The parsed JSON body of a successful `/works` response; `group` models
the possibly absent `group` array (the source writes `data.group || []`). -/
structure OrcidBody where
  group : Option (List WorkGroup)
  deriving DecidableEq, Repr, Inhabited

/-- Outcome of the network layer as seen by `fetchOrcidData`'s `try` block:
a parsed success body, or one of the failure modes the source
distinguishes (HTTP 404, other non-ok status, a thrown network error, a
body that fails to parse as JSON). -/
inductive FetchOutcome where
  | ok (body : OrcidBody)
  | notFound
  | httpError
  | networkError
  | malformedBody
  deriving DecidableEq, Repr

/-- Whether the outcome makes the source's `try` block throw before the
mapping step (non-success status, network error, malformed body). -/
def FetchOutcome.isErr : FetchOutcome → Bool
  | .ok _ => false
  | _ => true

/-- The per-summary mapping inside `fetchOrcidData`'s success path,
field by field:
`title: summary.title?.title?.value || 'Untitled'` (the `||` also replaces
an empty string), `year: yearStr ? parseInt(yearStr, 10) : null`,
`type: summary.type ? summary.type.replace(/_/g, ' ') : 'UNKNOWN'`,
`putCode: summary['put-code']`, and `doi` as the value of the first
external id whose type is `'doi'`. -/
def summaryToWork (s : WorkSummary) : OrcidWork :=
  { title := match s.title with
      | some t => if t = "" then "Untitled" else t
      | none => "Untitled"
    year := match s.pubYear with
      | some ys => if ys = "" then none else jsParseInt ys
      | none => none
    type := some (match s.type with
      | some t => if t = "" then "UNKNOWN" else replaceUnderscores t
      | none => "UNKNOWN")
    putCode := s.putCode
    doi := (s.externalIds.bind (fun l => l.find? (fun e => e.idType == "doi"))).map
      (fun e => e.idValue) }

/-- Mapping of one work group: the source reads `group['work-summary'][0]`
and then dereferences it, so a missing or empty `work-summary` array makes
the `try` block throw (`none` here). -/
def mapGroup (g : WorkGroup) : Option OrcidWork :=
  match g.workSummary with
  | some (s :: _) => some (summaryToWork s)
  | _ => none

/-- Mapping of all work groups; `none` as soon as one group throws,
mirroring exception propagation out of `Array.prototype.map`. -/
def mapGroups : List WorkGroup → Option (List OrcidWork)
  | [] => some []
  | g :: gs =>
    match mapGroup g, mapGroups gs with
    | some w, some ws => some (w :: ws)
    | _, _ => none

/-- The source's `fetchOrcidData`, as a total function of the network
outcome, the randomness used by the fallback, and the raw identifier.
The second component is the delay in milliseconds before the promise
resolves: 0 on the direct path, 500 on the fallback path (the source's
`setTimeout(..., 500)`). Totality of this function is the embedding of
"never raises to its caller": every outcome yields a profile. -/
def fetchOrcidData (o : FetchOutcome) (r : MockRand) (orcidId : String) :
    OrcidProfileData × Nat :=
  let cleanId := jsTrim orcidId
  match o with
  | .ok body =>
    match mapGroups (body.group.getD []) with
    | some works => ({ orcidId := cleanId, fullName := "Researcher " ++ cleanId, works := works }, 0)
    | none => (generateMockData r cleanId, 500)
  | _ => (generateMockData r cleanId, 500)

/-! Aggregator (`App.tsx`, the `stats` `useMemo`). -/

/-- All works of a profile sequence, in the traversal order of the source's
nested `forEach`. -/
def allWorks (data : List OrcidProfileData) : List OrcidWork :=
  (data.map (fun p => p.works)).flatten

/-- JS truthiness of `work.year` (`number | null`): `null` and `0` are
falsy, every other integer is truthy. This is the guard `if (work.year)`. -/
def truthyYear (w : OrcidWork) : Bool :=
  match w.year with
  | some y => y != 0
  | none => false

/-- The year used as a dictionary key for a work that passed the
truthiness guard. -/
def yearOf (w : OrcidWork) : Int := w.year.getD 0

/-- The year keys fed to `yearCounts`, in traversal order: one occurrence
per work whose year is truthy. -/
def yearKeys (data : List OrcidProfileData) : List Int :=
  ((allWorks data).filter truthyYear).map yearOf

/-- The type bucket of a work: `work.type || 'Other'` (JS `||`, so both a
missing type and the empty string fall into `"Other"`). -/
def typeKey (w : OrcidWork) : String :=
  match w.type with
  | some t => if t = "" then "Other" else t
  | none => "Other"

/-- The type keys fed to `typeCounts`, in traversal order: one occurrence
per work. -/
def typeKeys (data : List OrcidProfileData) : List String :=
  (allWorks data).map typeKey

/-- The distinct elements of a list in order of first occurrence: the key
enumeration order of a JS object built by insertion (as produced by
`Object.entries` for the non-numeric keys this application uses). -/
def firstSeen {κ : Type} [BEq κ] : List κ → List κ
  | [] => []
  | k :: ks => k :: (firstSeen ks).filter (fun x => x != k)

/-- The entries of a counting dictionary built by repeated
`counts[k] = (counts[k] || 0) + 1`: each distinct key in first-occurrence
order, paired with its number of occurrences. -/
def countEntries {κ : Type} [BEq κ] (ks : List κ) : List (κ × Nat) :=
  (firstSeen ks).map (fun k => (k, ks.count k))

/-- Insertion step of a stable sort with respect to the boolean relation
`le`: the new element goes in front of the first element it relates to,
hence after every earlier tie. JS `Array.prototype.sort` is stable. -/
def insertSortedBy {α : Type} (le : α → α → Bool) (x : α) : List α → List α
  | [] => [x]
  | y :: rest => if le x y then x :: y :: rest else y :: insertSortedBy le x rest

/-- Stable insertion sort modelling JS `Array.prototype.sort`. -/
def sortBy {α : Type} (le : α → α → Bool) (l : List α) : List α :=
  l.foldr (insertSortedBy le) []

/-- Comparator `(a, b) => a.year - b.year` (ascending by year). -/
def yearLe (a b : Int × Nat) : Bool := a.1 ≤ b.1

/-- Comparator `(a, b) => b.count - a.count` (descending by count). -/
def countGe (a b : String × Nat) : Bool := b.2 ≤ a.2

/-- The body of the source's `stats` aggregation, run unconditionally (the
source runs it after its `data.length === 0` early return; see `stats`).
`totalPubs` accumulates `profile.works.length`; the histograms are the
sorted entries of the two counting dictionaries, and the average is the
conditional `totalResearchers > 0 ? totalPubs / totalResearchers : 0`. -/
def computeStats (data : List OrcidProfileData) : AnalysisStats :=
  let totalPubs := (data.map (fun p => p.works.length)).sum
  { totalResearchers := data.length
    totalPublications := totalPubs
    avgPublications := if 0 < data.length then (totalPubs : ℚ) / (data.length : ℚ) else 0
    publicationsByYear := sortBy yearLe (countEntries (yearKeys data))
    publicationsByType := sortBy countGe (countEntries (typeKeys data))
    processedProfiles := data }

/-- The source's `stats` value: `null` when no profiles are loaded,
otherwise the computed aggregate. -/
def stats (data : List OrcidProfileData) : Option AnalysisStats :=
  if data.length = 0 then none else some (computeStats data)

/-! Identifier Extractor (`services/orcidService.ts` / `parseCsvFile`). -/

/-- Failure of the CSV parsing stage: the source rejects with
`new Error("CSV must contain an 'orcid' column.")`. -/
inductive CsvError where
  | missingColumn
  deriving DecidableEq, Repr

/-- Consume exactly `n` decimal digits from the front of a character
list, returning the remainder. -/
def chompDigits : Nat → List Char → Option (List Char)
  | 0, cs => some cs
  | _ + 1, [] => none
  | n + 1, c :: cs => if c.isDigit then chompDigits n cs else none

/-- Matcher for the regex fragment `\d{n}-` followed by a continuation:
consume `n` digits and a hyphen, then hand the rest to `k`. -/
def matchGroupHyphen (n : Nat) (k : List Char → Bool) (cs : List Char) : Bool :=
  match chompDigits n cs with
  | some ('-' :: cs1) => k cs1
  | _ => false

/-- Matcher for the regex tail `\d{3}[\dX]$`: three digits and then
exactly one final character that is a digit or `'X'`. -/
def matchTail (cs : List Char) : Bool :=
  match chompDigits 3 cs with
  | some [c] => c.isDigit || c = 'X'
  | _ => false

/-- Sequential matcher for the source's regular expression
`/^(\d{4}-){3}\d{3}[\dX]$/`: three groups of four digits each followed by
a hyphen, then three digits and a final digit-or-`'X'`. -/
def orcidRegexAccepts (cs : List Char) : Bool :=
  matchGroupHyphen 4 (matchGroupHyphen 4 (matchGroupHyphen 4 matchTail)) cs

/-- The source's acceptance test `id.match(/^(\d{4}-){3}\d{3}[\dX]$/)`. -/
def isValidOrcid (s : String) : Bool := orcidRegexAccepts s.data

/-- The row loop of `parseCsvFile`: for each data row in file order, split
on commas, skip the row if it has no cell at the identifier index, trim
the cell, and keep it exactly when the pattern accepts it. -/
def extractIds (k : Nat) : List String → List String
  | [] => []
  | line :: rest =>
    let cols := jsSplit ',' line
    (if k < cols.length then
      (let id := jsTrim (cols.getD k "")
       if isValidOrcid id then [id] else [])
     else []) ++ extractIds k rest

/-- The header cells of the upload, as the source computes them:
`lines[0].toLowerCase().split(',').map(h => h.trim())`. -/
def headerCells (text : String) : List String :=
  (jsSplit ',' (jsToLower ((splitLines text).headD ""))).map jsTrim

/-- The source's `parseCsvFile` on the file's text content: find the
`orcid` header column (first index whose trimmed lowercased cell is
`"orcid"`), failing with the missing-column error when there is none,
then run the row loop over the remaining lines. -/
def parseCsvFile (text : String) : Except CsvError (List String) :=
  match List.findIdx? (fun h => h == "orcid") (headerCells text) with
  | none => Except.error CsvError.missingColumn
  | some k => Except.ok (extractIds k ((splitLines text).drop 1))

/-! Batch Orchestrator (`App.tsx` / `handleBatchAnalyze`). -/

/-- Failure of the batch entry check: the source throws
`new Error("No valid ORCID IDs found in file.")` when the extracted
identifier list is empty. -/
inductive BatchError where
  | emptyBatch
  deriving DecidableEq, Repr

/-- The sequential `for (const id of ids)` loop: one fetch per identifier
in order, pushing successful results and skipping failures (the source
logs `console.warn` for a skipped identifier; that diagnostic is a side
effect outside the model). The second component is the trace of
identifiers for which a fetch was invoked, in invocation order. -/
def batchLoop {ε : Type} (fetchFn : String → Except ε OrcidProfileData) :
    List String → List OrcidProfileData × List String
  | [] => ([], [])
  | id :: rest =>
    let tail := batchLoop fetchFn rest
    match fetchFn id with
    | .ok r => (r :: tail.1, id :: tail.2)
    | .error _ => (tail.1, id :: tail.2)

/-- The source's `handleBatchAnalyze`, from the extracted identifier list
on: fail before any fetch when the list is empty, otherwise run the
sequential loop. The fetcher is abstracted as a fallible function (it is
architecturally total per the fallback policy, but the loop guards
defensively with `try`/`catch`). -/
def handleBatchAnalyze {ε : Type} (fetchFn : String → Except ε OrcidProfileData)
    (ids : List String) : Except BatchError (List OrcidProfileData) × List String :=
  if ids.length = 0 then (Except.error BatchError.emptyBatch, [])
  else (Except.ok (batchLoop fetchFn ids).1, (batchLoop fetchFn ids).2)

/-! Chat Context Builder (`components/ChatBot.tsx`). -/

/-- The instructional preamble of the system instruction. -/
def basePreamble : String :=
  "You are a helpful research assistant bot analyzing academic publication data."

/-- JS `Number.prototype.toFixed(1)` on an exact rational: round the value
to tenths (ties toward positive infinity, as `toFixed` picks the larger
candidate) and print it as `int.digit`. The sign handling of `-0.0x` is
not modelled; the application only formats non-negative averages. -/
def jsToFixed1 (q : ℚ) : String :=
  let tenths : Int := Int.fdiv (20 * q.num + (q.den : Int)) (2 * (q.den : Int))
  if tenths < 0 then
    "-" ++ toString ((-tenths) / 10) ++ "." ++ toString ((-tenths) % 10)
  else
    toString (tenths / 10) ++ "." ++ toString (tenths % 10)

/-- Formatting of one year-histogram entry in the briefing:
`` `${y.year} (${y.count})` ``. -/
def fmtYearEntry (e : Int × Nat) : String :=
  toString e.1 ++ " (" ++ toString e.2 ++ ")"

/-- Formatting of one type-histogram entry in the briefing:
`` `${t.type} (${t.count})` ``. -/
def fmtTypeEntry (e : String × Nat) : String :=
  e.1 ++ " (" ++ toString e.2 ++ ")"

/-- The `- Top Years:` value: the first three year-histogram entries
(`slice(0, 3)`), formatted and comma-joined. -/
def topYearsLine (s : AnalysisStats) : String :=
  String.intercalate ", " ((s.publicationsByYear.take 3).map fmtYearEntry)

/-- The `- Top Types:` value: the first three type-histogram entries
(`slice(0, 3)`), formatted and comma-joined. -/
def topTypesLine (s : AnalysisStats) : String :=
  String.intercalate ", " ((s.publicationsByType.take 3).map fmtTypeEntry)

/-- The data-context block appended to the preamble when a summary is
present: the source's template literal, with its newlines and indentation
written out. -/
def contextBlock (s : AnalysisStats) : String :=
  "\n        \n\nCURRENT DATA CONTEXT:\n        "
  ++ ("- Total Researchers Analyzed: " ++ toString s.totalResearchers) ++ "\n        "
  ++ ("- Total Publications: " ++ toString s.totalPublications) ++ "\n        "
  ++ ("- Average Publications per Researcher: " ++ jsToFixed1 s.avgPublications) ++ "\n        "
  ++ ("- Top Years: " ++ topYearsLine s) ++ "\n        "
  ++ ("- Top Types: " ++ topTypesLine s)
  ++ "\n        \n        Use this data to answer user questions about the specific analysis currently on screen. Be concise and professional.\n        "

/-- The system instruction handed to the chat-session constructor: the
preamble alone when no analysis is loaded, the preamble plus the data
briefing otherwise. -/
def buildSystemInstruction (ctx : Option AnalysisStats) : String :=
  match ctx with
  | none => basePreamble
  | some s => basePreamble ++ contextBlock s

/-! Spec-side definitions. Each of the following is written from the
wording of a claim (for refinement comparison with the source-side
definition above), not from the source. -/

/-- Claim C3's structural pattern, read literally: four hyphen-separated
groups of four characters, the first twelve (group) characters digits,
and the final character a digit or `'X'`. The first three characters of
the fourth group are left unconstrained by this wording. -/
def claimStructuralPattern (s : String) : Bool :=
  match s.data.splitOn '-' with
  | [g1, g2, g3, g4] =>
    decide (g1.length = 4) && decide (g2.length = 4) && decide (g3.length = 4) &&
    decide (g4.length = 4) && (g1 ++ g2 ++ g3).all Char.isDigit &&
    (match g4.getLast? with
     | some c => c.isDigit || c = 'X'
     | none => false)
  | _ => false

/-- The amended structural pattern: as in the claim, but the first three
characters of the final group must also be digits (so the first fifteen
group characters are digits), matching the source's `\d{3}[\dX]` tail. -/
def structuralPatternAmended (s : String) : Bool :=
  match s.data.splitOn '-' with
  | [g1, g2, g3, g4] =>
    decide (g1.length = 4) && decide (g2.length = 4) && decide (g3.length = 4) &&
    decide (g4.length = 4) && (g1 ++ g2 ++ g3 ++ g4.take 3).all Char.isDigit &&
    (match g4.getLast? with
     | some c => c.isDigit || c = 'X'
     | none => false)
  | _ => false

/-- Claim C8's per-summary mapping, read literally: title defaults to
`"Untitled"` only when absent; year is parsed when present; the type
label has underscores replaced by spaces and defaults to `"UNKNOWN"` when
absent; the external identifier is the value of the first external id
with type tag `"doi"`. -/
def claimSummaryToWork (s : WorkSummary) : OrcidWork :=
  { title := s.title.getD "Untitled"
    year := s.pubYear.bind jsParseInt
    type := some ((s.type.map replaceUnderscores).getD "UNKNOWN")
    putCode := s.putCode
    doi := ((s.externalIds.getD []).find? (fun e => e.idType == "doi")).map
      (fun e => e.idValue) }

/-- Collapse a JS-falsy (empty) string to an absent value. -/
def normFalsy (o : Option String) : Option String :=
  match o with
  | some t => if t = "" then none else some t
  | none => none

/-- The amended C8 mapping: as `claimSummaryToWork`, but the title and
type defaults also apply to present-but-empty strings (JS `||` and the
conditional operator test truthiness, not presence). -/
def amendedSummaryToWork (s : WorkSummary) : OrcidWork :=
  { title := (normFalsy s.title).getD "Untitled"
    year := s.pubYear.bind jsParseInt
    type := some (((normFalsy s.type).map replaceUnderscores).getD "UNKNOWN")
    putCode := s.putCode
    doi := ((s.externalIds.getD []).find? (fun e => e.idType == "doi")).map
      (fun e => e.idValue) }

/-- The first summary of a work group, used to state the success-path
mapping claim for groups that have one. -/
def headSummary (g : WorkGroup) : WorkSummary :=
  (g.workSummary.getD []).headD default

/-! Concrete inputs used by counterexamples and witnesses. -/

/-- A summary whose title is present but empty. -/
def exSummaryEmptyTitle : WorkSummary :=
  { title := some "", pubYear := some "2020", type := some "JOURNAL_ARTICLE",
    putCode := "1", externalIds := none }

/-- A profile with a single work whose year is `0`: non-null, but falsy. -/
def yearZeroProfile : OrcidProfileData :=
  { orcidId := "0000-0001-0000-0000", fullName := "R",
    works := [{ title := "t", year := some 0, type := some "JOURNAL ARTICLE",
                putCode := "1", doi := none }] }

/-- The spec's aggregation example: works with types
`["JOURNAL_ARTICLE", "JOURNAL_ARTICLE", "", null]`. -/
def typeExampleProfile : OrcidProfileData :=
  { orcidId := "0000", fullName := "R",
    works := [
      { title := "a", year := some 2020, type := some "JOURNAL_ARTICLE", putCode := "1", doi := none },
      { title := "b", year := some 2021, type := some "JOURNAL_ARTICLE", putCode := "2", doi := none },
      { title := "c", year := some 2021, type := some "", putCode := "3", doi := none },
      { title := "d", year := none, type := none, putCode := "4", doi := none }] }

/-! Generic lemmas about `firstSeen`, `countEntries` and `sortBy`. -/

section ListLemmas

variable {κ : Type} [BEq κ] [LawfulBEq κ]

theorem firstSeen_mem {x : κ} : ∀ {l : List κ}, x ∈ firstSeen l ↔ x ∈ l := by
  intro l
  induction l with
  | nil => simp [firstSeen]
  | cons k ks ih =>
    simp only [firstSeen, List.mem_cons, List.mem_filter, ih, bne_iff_ne]
    by_cases hxk : x = k <;> simp [hxk]

theorem firstSeen_nodup : ∀ (l : List κ), (firstSeen l).Nodup := by
  intro l
  induction l with
  | nil => simp [firstSeen]
  | cons k ks ih =>
    refine List.nodup_cons.mpr ⟨?_, ih.filter _⟩
    intro hmem
    rcases List.mem_filter.mp hmem with ⟨_, hne⟩
    exact absurd rfl (bne_iff_ne.mp hne)

theorem firstSeen_filter (p : κ → Bool) :
    ∀ (l : List κ), (firstSeen l).filter p = firstSeen (l.filter p) := by
  intro l
  induction l with
  | nil => simp [firstSeen]
  | cons k ks ih =>
    by_cases hk : p k = true
    · simp only [firstSeen, List.filter_cons, hk, if_pos]
      simp only [firstSeen, ← ih, List.filter_filter]
      refine congrArg _ (List.filter_congr ?_)
      intro x _
      exact Bool.and_comm _ _
    · have hk' : p k = false := Bool.not_eq_true _ ▸ eq_false_of_ne_true hk
      simp only [firstSeen, List.filter_cons, hk', Bool.false_eq_true, if_false, ← ih,
        List.filter_filter]
      refine List.filter_congr ?_
      intro x _
      by_cases hxk : x = k
      · subst hxk; simp [hk']
      · simp [bne_iff_ne, hxk]

theorem sum_count_firstSeen (l : List κ) :
    ((firstSeen l).map (fun k => l.count k)).sum = l.length := by
  have main : ∀ (n : Nat) (l : List κ), l.length = n →
      ((firstSeen l).map (fun k => l.count k)).sum = l.length := by
    intro n
    induction n using Nat.strong_induction_on with
    | _ n ih =>
      intro l hl
      match l with
      | [] => simp [firstSeen]
      | k :: ks =>
        have hfilt : (firstSeen ks).filter (fun x => x != k)
            = firstSeen (ks.filter (fun x => x != k)) := firstSeen_filter _ ks
        have hlen : (ks.filter (fun x => x != k)).length < n := by
          have h1 := List.length_filter_le (fun x => x != k) ks
          have h2 : ks.length + 1 = n := by simpa using hl
          omega
        have hih := ih _ hlen (ks.filter (fun x => x != k)) rfl
        have hcongr : (firstSeen (ks.filter (fun x => x != k))).map
              (fun x => (k :: ks).count x)
            = (firstSeen (ks.filter (fun x => x != k))).map
              (fun x => (ks.filter (fun x => x != k)).count x) := by
          refine List.map_congr_left ?_
          intro x hx
          have hxk : (x != k) = true := by
            have := (List.mem_filter.mp (firstSeen_mem.mp hx)).2
            exact this
          have hxkne : x ≠ k := bne_iff_ne.mp hxk
          rw [List.count_cons]
          have : (k == x) = false := by
            simp [beq_iff_eq]
            exact fun h => hxkne h.symm
          simp only [this, Bool.false_eq_true, if_false, Nat.add_zero]
          exact (@List.count_filter κ _ _ (fun y => y != k) x ks hxk).symm
        have hcount : ks.count k + (ks.filter (fun x => x != k)).length = ks.length := by
          have h1 : ks.count k = ks.countP (fun x => x == k) := List.count_eq_countP k ks
          have h2 : (ks.filter (fun x => x != k)).length = ks.countP (fun x => x != k) :=
            (List.countP_eq_length_filter _ ks).symm
          have h3 := List.length_eq_countP_add_countP (fun x => x == k) ks
          have h4 : ks.countP (fun a => decide ¬(a == k) = true) = ks.countP (fun x => x != k) := by
            refine congrFun (congrArg _ ?_) ks
            funext a
            by_cases hak : (a == k) = true <;> simp [hak, bne]
          omega
        calc ((firstSeen (k :: ks)).map (fun x => (k :: ks).count x)).sum
            = (k :: ks).count k
              + (((firstSeen ks).filter (fun x => x != k)).map
                  (fun x => (k :: ks).count x)).sum := by
              simp [firstSeen]
          _ = (k :: ks).count k
              + ((firstSeen (ks.filter (fun x => x != k))).map
                  (fun x => (ks.filter (fun x => x != k)).count x)).sum := by
              rw [hfilt, hcongr]
          _ = (k :: ks).count k + (ks.filter (fun x => x != k)).length := by rw [hih]
          _ = (ks.count k + 1) + (ks.filter (fun x => x != k)).length := by
              rw [List.count_cons]; simp
          _ = ks.length + 1 := by omega
          _ = (k :: ks).length := by simp
  exact main l.length l rfl

theorem countEntries_mem {ks : List κ} {k : κ} {c : Nat} :
    (k, c) ∈ countEntries ks ↔ k ∈ ks ∧ c = ks.count k := by
  simp only [countEntries, List.mem_map]
  constructor
  · rintro ⟨a, ha, heq⟩
    obtain ⟨h1, h2⟩ := Prod.mk.injEq .. ▸ heq
    subst h1
    exact ⟨firstSeen_mem.mp ha, h2.symm⟩
  · rintro ⟨hk, rfl⟩
    exact ⟨k, firstSeen_mem.mpr hk, rfl⟩

theorem countEntries_keys (ks : List κ) :
    (countEntries ks).map Prod.fst = firstSeen ks := by
  simp only [countEntries, List.map_map]
  have h : (Prod.fst ∘ fun k => (k, ks.count k)) = fun k : κ => k := rfl
  rw [h, List.map_id']

theorem countEntries_counts_sum (ks : List κ) :
    ((countEntries ks).map (fun e => e.2)).sum = ks.length := by
  have : ((countEntries ks).map (fun e => e.2)) = (firstSeen ks).map (fun k => ks.count k) := by
    simp [countEntries, List.map_map, Function.comp]
  rw [this, sum_count_firstSeen]

end ListLemmas

/-! Lemmas about the stable insertion sort `sortBy`. -/

section SortLemmas

variable {α : Type} (le : α → α → Bool)

theorem insertSortedBy_perm (x : α) :
    ∀ (l : List α), (insertSortedBy le x l).Perm (x :: l) := by
  intro l
  induction l with
  | nil => exact List.Perm.refl _
  | cons y rest ih =>
    by_cases h : le x y = true
    · simp [insertSortedBy, h]
    · have h' : le x y = false := eq_false_of_ne_true h
      simp only [insertSortedBy, h', Bool.false_eq_true, if_false]
      exact ((List.perm_cons y).mpr ih).trans (List.Perm.swap x y rest)

theorem sortBy_perm : ∀ (l : List α), (sortBy le l).Perm l := by
  intro l
  induction l with
  | nil => exact List.Perm.refl _
  | cons x xs ih =>
    have h1 : sortBy le (x :: xs) = insertSortedBy le x (sortBy le xs) := rfl
    rw [h1]
    exact (insertSortedBy_perm le x (sortBy le xs)).trans ((List.perm_cons x).mpr ih)

theorem insertSortedBy_mem {x b : α} {l : List α} :
    b ∈ insertSortedBy le x l ↔ b = x ∨ b ∈ l := by
  rw [(insertSortedBy_perm le x l).mem_iff, List.mem_cons]

theorem insertSortedBy_sorted
    (htot : ∀ a b, le a b = false → le b a = true)
    (htrans : ∀ a b c, le a b = true → le b c = true → le a c = true)
    (x : α) :
    ∀ {l : List α}, l.Pairwise (fun a b => le a b = true) →
      (insertSortedBy le x l).Pairwise (fun a b => le a b = true) := by
  intro l
  induction l with
  | nil => intro _; simp [insertSortedBy]
  | cons y rest ih =>
    intro hp
    rcases List.pairwise_cons.mp hp with ⟨hy, hrest⟩
    by_cases h : le x y = true
    · simp only [insertSortedBy, h, if_pos]
      refine List.pairwise_cons.mpr ⟨?_, hp⟩
      intro b hb
      rcases List.mem_cons.mp hb with rfl | hb'
      · exact h
      · exact htrans x y b h (hy b hb')
    · have h' : le x y = false := eq_false_of_ne_true h
      simp only [insertSortedBy, h', Bool.false_eq_true, if_false]
      refine List.pairwise_cons.mpr ⟨?_, ih hrest⟩
      intro b hb
      rcases (insertSortedBy_mem le).mp hb with hbx | hb'
      · rw [hbx]; exact htot x y h'
      · exact hy b hb'

theorem sortBy_sorted
    (htot : ∀ a b, le a b = false → le b a = true)
    (htrans : ∀ a b c, le a b = true → le b c = true → le a c = true) :
    ∀ (l : List α), (sortBy le l).Pairwise (fun a b => le a b = true) := by
  intro l
  induction l with
  | nil => simp [sortBy]
  | cons x xs ih => exact insertSortedBy_sorted le htot htrans x ih

theorem insertSortedBy_decomp (x : α) :
    ∀ (l : List α), ∃ pre suf, insertSortedBy le x l = pre ++ x :: suf ∧
      l = pre ++ suf ∧ ∀ q ∈ pre, le x q = false := by
  intro l
  induction l with
  | nil => exact ⟨[], [], rfl, rfl, by simp⟩
  | cons y rest ih =>
    by_cases h : le x y = true
    · exact ⟨[], y :: rest, by simp [insertSortedBy, h], rfl, by simp⟩
    · have h' : le x y = false := eq_false_of_ne_true h
      rcases ih with ⟨pre, suf, h1, h2, h3⟩
      refine ⟨y :: pre, suf, ?_, ?_, ?_⟩
      · simp only [insertSortedBy, h', Bool.false_eq_true, if_false, h1, List.cons_append]
      · simp [h2]
      · intro q hq
        rcases List.mem_cons.mp hq with rfl | hq'
        · exact h'
        · exact h3 q hq'

theorem filter_insertSortedBy (p : α → Bool)
    (hco : ∀ x q, p x = true → le x q = false → p q = false)
    (x : α) (l : List α) :
    (insertSortedBy le x l).filter p =
      (if p x then x :: l.filter p else l.filter p) := by
  rcases insertSortedBy_decomp le x l with ⟨pre, suf, h1, h2, h3⟩
  by_cases hp : p x = true
  · have hpre : pre.filter p = [] := by
      rw [List.filter_eq_nil_iff]
      intro q hq
      rw [hco x q hp (h3 q hq)]
      exact Bool.false_ne_true
    rw [h1, List.filter_append, List.filter_cons, hp, if_pos rfl, hpre, h2,
      List.filter_append, hpre]
    simp
  · have hp' : p x = false := eq_false_of_ne_true hp
    rw [h1, List.filter_append, List.filter_cons, hp', h2, List.filter_append]
    simp [hp']

theorem filter_sortBy (p : α → Bool)
    (hco : ∀ x q, p x = true → le x q = false → p q = false) :
    ∀ (l : List α), (sortBy le l).filter p = l.filter p := by
  intro l
  induction l with
  | nil => rfl
  | cons x xs ih =>
    have h1 : sortBy le (x :: xs) = insertSortedBy le x (sortBy le xs) := rfl
    rw [h1, filter_insertSortedBy le p hco, List.filter_cons, ih]

end SortLemmas

/-! Aggregator lemmas. -/

theorem yearLe_total : ∀ a b : Int × Nat, yearLe a b = false → yearLe b a = true := by
  intro a b h
  simp only [yearLe, decide_eq_false_iff_not, decide_eq_true_eq] at *
  omega

theorem yearLe_trans :
    ∀ a b c : Int × Nat, yearLe a b = true → yearLe b c = true → yearLe a c = true := by
  intro a b c h1 h2
  simp only [yearLe, decide_eq_true_eq] at *
  omega

theorem countGe_total : ∀ a b : String × Nat, countGe a b = false → countGe b a = true := by
  intro a b h
  simp only [countGe, decide_eq_false_iff_not, decide_eq_true_eq] at *
  omega

theorem countGe_trans :
    ∀ a b c : String × Nat, countGe a b = true → countGe b c = true → countGe a c = true := by
  intro a b c h1 h2
  simp only [countGe, decide_eq_true_eq] at *
  omega

theorem yearHist_perm (data : List OrcidProfileData) :
    ((computeStats data).publicationsByYear).Perm (countEntries (yearKeys data)) :=
  sortBy_perm yearLe (countEntries (yearKeys data))

theorem typeHist_perm (data : List OrcidProfileData) :
    ((computeStats data).publicationsByType).Perm (countEntries (typeKeys data)) :=
  sortBy_perm countGe (countEntries (typeKeys data))

theorem truthyYear_iff {w : OrcidWork} {y : Int} :
    (truthyYear w = true ∧ yearOf w = y) ↔ (w.year = some y ∧ y ≠ 0) := by
  cases hw : w.year with
  | none => simp [truthyYear, hw]
  | some z =>
    simp only [truthyYear, hw, yearOf, Option.getD_some, bne_iff_ne, Option.some.injEq]
    constructor
    · rintro ⟨h1, rfl⟩
      exact ⟨rfl, h1⟩
    · rintro ⟨rfl, h2⟩
      exact ⟨h2, rfl⟩

theorem yearKeys_count (data : List OrcidProfileData) (y : Int) :
    (yearKeys data).count y
      = (allWorks data).countP (fun w => truthyYear w && (yearOf w == y)) := by
  rw [yearKeys, List.count_eq_countP, List.countP_map, List.countP_eq_length_filter,
    List.filter_filter, ← List.countP_eq_length_filter]
  refine congrFun (congrArg _ ?_) _
  funext w
  simp only [Function.comp]
  exact Bool.and_comm _ _

theorem totalPublications_eq_allWorks (data : List OrcidProfileData) :
    (computeStats data).totalPublications = (allWorks data).length := by
  show (data.map (fun p => p.works.length)).sum = _
  rw [allWorks, List.length_flatten, List.map_map]
  rfl

theorem yearHist_counts_sum (data : List OrcidProfileData) :
    (((computeStats data).publicationsByYear).map (fun e => e.2)).sum
      = ((allWorks data).filter truthyYear).length := by
  have hperm := (yearHist_perm data).map (fun e : Int × Nat => e.2)
  rw [hperm.sum_eq, countEntries_counts_sum, yearKeys, List.length_map]

theorem typeHist_counts_sum (data : List OrcidProfileData) :
    (((computeStats data).publicationsByType).map (fun e => e.2)).sum
      = (allWorks data).length := by
  have hperm := (typeHist_perm data).map (fun e : String × Nat => e.2)
  rw [hperm.sum_eq, countEntries_counts_sum, typeKeys, List.length_map]

/-! Claim theorems for the Aggregator. -/

/-- Claim C2: for any profile sequence, the aggregate's publication count
is the sum of the profiles' work counts and the researcher count is the
sequence length; the average is publications divided by researchers when
the researcher count is positive, the guarded average expression yields 0
on the empty sequence (no division-by-zero propagation), and the empty
sequence produces no summary at all (the source's null result). -/
theorem claim_c2_aggregator_totals (data : List OrcidProfileData) :
    (computeStats data).totalPublications = (data.map (fun p => p.works.length)).sum
    ∧ (computeStats data).totalResearchers = data.length
    ∧ stats [] = none
    ∧ (computeStats []).avgPublications = 0
    ∧ (data ≠ [] →
        stats data = some (computeStats data)
        ∧ (computeStats data).avgPublications
            = ((computeStats data).totalPublications : ℚ)
              / ((computeStats data).totalResearchers : ℚ)) := by
  refine ⟨rfl, rfl, rfl, by simp [computeStats], ?_⟩
  intro h
  have hlen : 0 < data.length := List.length_pos.mpr h
  constructor
  · simp only [stats]
    rw [if_neg (Nat.pos_iff_ne_zero.mp hlen)]
  · have hrfl : (computeStats data).avgPublications
        = if 0 < data.length then ((computeStats data).totalPublications : ℚ)
            / ((computeStats data).totalResearchers : ℚ) else 0 := rfl
    rw [hrfl, if_pos hlen]

/-- Witness for claim C2 at a concrete nonempty input. -/
theorem claim_c2_aggregator_totals_witness :
    ([typeExampleProfile] ≠ ([] : List OrcidProfileData))
    ∧ (stats [typeExampleProfile] = some (computeStats [typeExampleProfile])
       ∧ (computeStats [typeExampleProfile]).avgPublications
           = ((computeStats [typeExampleProfile]).totalPublications : ℚ)
             / ((computeStats [typeExampleProfile]).totalResearchers : ℚ)) :=
  ⟨by simp, (claim_c2_aggregator_totals [typeExampleProfile]).2.2.2.2 (by simp)⟩

/-- Counterexample to claim C5 as stated: a work with year `0` has a
non-null year, yet the aggregator's truthiness guard `if (work.year)`
drops it, so the year histogram has no entry for it. -/
theorem claim_c5_counterexample :
    (computeStats [yearZeroProfile]).publicationsByYear = []
    ∧ (allWorks [yearZeroProfile]).map (fun w => w.year) = [some 0] := by
  constructor
  · decide
  · decide

/-- Claim C5 (amended): the year histogram has one entry per distinct
truthy year (non-null and nonzero: JS truthiness, not mere non-nullness),
whose count is the number of works carrying that year, each such work
counted exactly once; entries are sorted strictly ascending by year, and
works with a null (or zero) year produce no entry. -/
theorem claim_c5_year_histogram_amended (data : List OrcidProfileData) :
    ((computeStats data).publicationsByYear).Pairwise (fun a b => a.1 < b.1)
    ∧ (∀ y c, (y, c) ∈ (computeStats data).publicationsByYear
        ↔ (y ∈ yearKeys data ∧ c = (yearKeys data).count y))
    ∧ (∀ y, y ∈ yearKeys data ↔ ∃ w ∈ allWorks data, w.year = some y ∧ y ≠ 0)
    ∧ (∀ y, (yearKeys data).count y
        = (allWorks data).countP (fun w => truthyYear w && (yearOf w == y))) := by
  refine ⟨?_, ?_, ?_, yearKeys_count data⟩
  · have hperm := yearHist_perm data
    have hsorted : ((computeStats data).publicationsByYear).Pairwise
        (fun a b => yearLe a b = true) :=
      sortBy_sorted yearLe yearLe_total yearLe_trans (countEntries (yearKeys data))
    have hnodup : (((computeStats data).publicationsByYear).map Prod.fst).Nodup := by
      have h1 : (((computeStats data).publicationsByYear).map Prod.fst).Perm
          (firstSeen (yearKeys data)) := by
        have h2 := hperm.map Prod.fst
        rwa [countEntries_keys] at h2
      exact h1.nodup_iff.mpr (firstSeen_nodup _)
    have hne : ((computeStats data).publicationsByYear).Pairwise
        (fun a b => a.1 ≠ b.1) := List.pairwise_map.mp hnodup
    exact (hsorted.and hne).imp
      (fun hab => lt_of_le_of_ne (by simpa [yearLe] using hab.1) hab.2)
  · intro y c
    exact ((yearHist_perm data).mem_iff).trans countEntries_mem
  · intro y
    simp only [yearKeys, List.mem_map, List.mem_filter]
    constructor
    · rintro ⟨w, ⟨hw, ht⟩, hy⟩
      exact ⟨w, hw, truthyYear_iff.mp ⟨ht, hy⟩⟩
    · rintro ⟨w, hw, hws⟩
      rcases truthyYear_iff.mpr hws with ⟨ht, hy⟩
      exact ⟨w, ⟨hw, ht⟩, hy⟩

/-- Claim C4: the type histogram is grouped by type with `"Other"`
substituted for falsy (absent or empty) types, counts per bucket, is
sorted descending by count with ties kept in first-seen bucket order, a
falsy-typed work always lands in an `"Other"` bucket that is present
whenever such a work exists, and the spec's example with types
`["JOURNAL_ARTICLE", "JOURNAL_ARTICLE", "", null]` yields the counts
`JOURNAL_ARTICLE: 2, Other: 2`. -/
theorem claim_c4_type_histogram (data : List OrcidProfileData) :
    ((computeStats data).publicationsByType).Pairwise (fun a b => b.2 ≤ a.2)
    ∧ (∀ c, ((computeStats data).publicationsByType).filter (fun e => e.2 == c)
        = (countEntries (typeKeys data)).filter (fun e => e.2 == c))
    ∧ (countEntries (typeKeys data)).map Prod.fst = firstSeen (typeKeys data)
    ∧ (∀ t c, (t, c) ∈ (computeStats data).publicationsByType
        ↔ (t ∈ typeKeys data ∧ c = (typeKeys data).count t))
    ∧ (∀ w, (w.type = none ∨ w.type = some "") → typeKey w = "Other")
    ∧ ((∃ w ∈ allWorks data, w.type = none ∨ w.type = some "")
        → ("Other", (typeKeys data).count "Other")
            ∈ (computeStats data).publicationsByType)
    ∧ (computeStats [typeExampleProfile]).publicationsByType
        = [("JOURNAL_ARTICLE", 2), ("Other", 2)] := by
  refine ⟨?_, ?_, countEntries_keys _, ?_, ?_, ?_, by decide⟩
  · have hsorted : ((computeStats data).publicationsByType).Pairwise
        (fun a b => countGe a b = true) :=
      sortBy_sorted countGe countGe_total countGe_trans (countEntries (typeKeys data))
    exact hsorted.imp (fun hab => by simpa [countGe] using hab)
  · intro c
    refine filter_sortBy countGe (fun e => e.2 == c) ?_ (countEntries (typeKeys data))
    intro x q hx hq
    have hx' : x.2 = c := by simpa using hx
    have hq' : x.2 < q.2 := by
      simp only [countGe, decide_eq_false_iff_not, not_le] at hq
      exact hq
    simp only [beq_eq_false_iff_ne, ne_eq]
    omega
  · intro t c
    exact ((typeHist_perm data).mem_iff).trans countEntries_mem
  · rintro w (h | h) <;> simp [typeKey, h]
  · rintro ⟨w, hw, hty⟩
    have hother : typeKey w = "Other" := by
      rcases hty with h | h <;> simp [typeKey, h]
    have hmem : "Other" ∈ typeKeys data :=
      List.mem_map.mpr ⟨w, hw, hother⟩
    exact ((typeHist_perm data).mem_iff).mpr (countEntries_mem.mpr ⟨hmem, rfl⟩)

/-- Witness for claim C4's catch-all-bucket implication at a concrete
input containing a null-typed work. -/
theorem claim_c4_type_histogram_witness :
    ("Other", (typeKeys [typeExampleProfile]).count "Other")
      ∈ (computeStats [typeExampleProfile]).publicationsByType :=
  (claim_c4_type_histogram [typeExampleProfile]).2.2.2.2.2.1
    ⟨{ title := "d", year := none, type := none, putCode := "4", doi := none },
      by decide, Or.inl rfl⟩

/-- Claim C10: for a non-empty profile sequence, the type-histogram counts
sum to the publication count (every work falls into exactly one bucket),
and the year-histogram counts sum to at most the publication count, with
equality exactly when every work has a truthy (histogram-included) year. -/
theorem claim_c10_histogram_mass (data : List OrcidProfileData) (h : data ≠ []) :
    ∃ s, stats data = some s
    ∧ ((s.publicationsByType.map (fun e => e.2)).sum = s.totalPublications)
    ∧ ((s.publicationsByYear.map (fun e => e.2)).sum ≤ s.totalPublications)
    ∧ (((s.publicationsByYear.map (fun e => e.2)).sum = s.totalPublications)
        ↔ ∀ w ∈ allWorks data, truthyYear w = true) := by
  have hlen : 0 < data.length := List.length_pos.mpr h
  refine ⟨computeStats data, ?_, ?_, ?_, ?_⟩
  · simp only [stats]
    rw [if_neg (Nat.pos_iff_ne_zero.mp hlen)]
  · rw [typeHist_counts_sum, totalPublications_eq_allWorks]
  · rw [yearHist_counts_sum, totalPublications_eq_allWorks]
    exact List.length_filter_le _ _
  · rw [yearHist_counts_sum, totalPublications_eq_allWorks,
      ← List.countP_eq_length_filter]
    exact List.countP_eq_length

/-- Witness for claim C10 at a concrete nonempty input. -/
theorem claim_c10_histogram_mass_witness :
    ([typeExampleProfile] ≠ ([] : List OrcidProfileData))
    ∧ ∃ s, stats [typeExampleProfile] = some s
    ∧ ((s.publicationsByType.map (fun e => e.2)).sum = s.totalPublications)
    ∧ ((s.publicationsByYear.map (fun e => e.2)).sum ≤ s.totalPublications)
    ∧ (((s.publicationsByYear.map (fun e => e.2)).sum = s.totalPublications)
        ↔ ∀ w ∈ allWorks [typeExampleProfile], truthyYear w = true) :=
  ⟨by simp, claim_c10_histogram_mass [typeExampleProfile] (by simp)⟩

/-! Claim theorems for the Record Fetcher. -/

/-- A concrete randomness source for witnesses. -/
def mockRandZero : MockRand :=
  { lenChoice := ⟨0, by omega⟩
    yearChoice := fun _ => ⟨0, by omega⟩
    typeChoice := fun _ => ⟨0, by omega⟩ }

/-- Claim C1: on every failing outcome (non-success status, network error,
malformed body) the fetcher resolves — after the fixed 500 ms delay — to
the synthetic profile for the trimmed input: its identifier is the
trimmed input, its work count lies between 5 and 24 inclusive, and every
synthetic work has a year from the fixed recent pool and a type from the
fixed type pool. Totality of `fetchOrcidData` embeds "never raises". -/
theorem claim_c1_fetch_fallback (o : FetchOutcome) (r : MockRand) (input : String)
    (h : o.isErr = true) :
    fetchOrcidData o r input = (generateMockData r (jsTrim input), 500)
    ∧ (fetchOrcidData o r input).1.orcidId = jsTrim input
    ∧ 5 ≤ (fetchOrcidData o r input).1.works.length
    ∧ (fetchOrcidData o r input).1.works.length ≤ 24
    ∧ ∀ w ∈ (fetchOrcidData o r input).1.works,
        (∃ y ∈ mockYears, w.year = some y) ∧ (∃ t ∈ mockTypes, w.type = some t) := by
  have heq : fetchOrcidData o r input = (generateMockData r (jsTrim input), 500) := by
    cases o with
    | ok body => simp [FetchOutcome.isErr] at h
    | notFound => rfl
    | httpError => rfl
    | networkError => rfl
    | malformedBody => rfl
  have hid : (generateMockData r (jsTrim input)).orcidId = jsTrim input := rfl
  have hlen : (generateMockData r (jsTrim input)).works.length = r.lenChoice.val + 5 := by
    simp [generateMockData]
  have hbound := r.lenChoice.isLt
  refine ⟨heq, ?_, ?_, ?_, ?_⟩
  · rw [heq]; exact hid
  · rw [heq]; simp only []; rw [hlen]; omega
  · rw [heq]; simp only []; rw [hlen]; omega
  · rw [heq]
    intro w hw
    simp only [generateMockData, List.mem_map, List.mem_range] at hw
    rcases hw with ⟨i, _, rfl⟩
    constructor
    · exact ⟨_, List.get_mem _ _ _, rfl⟩
    · exact ⟨_, List.get_mem _ _ _, rfl⟩

/-- Witness for claim C1 at a failing outcome and concrete inputs. -/
theorem claim_c1_fetch_fallback_witness :
    (FetchOutcome.networkError.isErr = true)
    ∧ (fetchOrcidData FetchOutcome.networkError mockRandZero " 0000-0002-1825-0097 "
        = (generateMockData mockRandZero (jsTrim " 0000-0002-1825-0097 "), 500)
      ∧ (fetchOrcidData FetchOutcome.networkError mockRandZero " 0000-0002-1825-0097 ").1.orcidId
          = jsTrim " 0000-0002-1825-0097 "
      ∧ 5 ≤ (fetchOrcidData FetchOutcome.networkError mockRandZero " 0000-0002-1825-0097 ").1.works.length
      ∧ (fetchOrcidData FetchOutcome.networkError mockRandZero " 0000-0002-1825-0097 ").1.works.length ≤ 24
      ∧ ∀ w ∈ (fetchOrcidData FetchOutcome.networkError mockRandZero " 0000-0002-1825-0097 ").1.works,
          (∃ y ∈ mockYears, w.year = some y) ∧ (∃ t ∈ mockTypes, w.type = some t)) :=
  ⟨rfl, claim_c1_fetch_fallback FetchOutcome.networkError mockRandZero
    " 0000-0002-1825-0097 " rfl⟩

/-- Counterexample to claim C8 as stated: a present-but-empty title is
replaced by `"Untitled"` by the source's `|| 'Untitled'` (JS truthiness),
while the claim's "default if absent" keeps the empty string. -/
theorem claim_c8_counterexample :
    (summaryToWork exSummaryEmptyTitle).title = "Untitled"
    ∧ (claimSummaryToWork exSummaryEmptyTitle).title = ""
    ∧ summaryToWork exSummaryEmptyTitle ≠ claimSummaryToWork exSummaryEmptyTitle := by
  refine ⟨by decide, by decide, by decide⟩

/-- Every work summary is mapped the same way by the source and by the
amended claim description (title and type defaults also firing on
present-but-empty strings). -/
theorem summaryToWork_eq_amended (s : WorkSummary) :
    summaryToWork s = amendedSummaryToWork s := by
  have htitle : (match s.title with
      | some t => if t = "" then "Untitled" else t
      | none => "Untitled") = (normFalsy s.title).getD "Untitled" := by
    cases s.title with
    | none => rfl
    | some t => by_cases ht : t = "" <;> simp [normFalsy, ht]
  have hyear : (match s.pubYear with
      | some ys => if ys = "" then none else jsParseInt ys
      | none => none) = s.pubYear.bind jsParseInt := by
    cases s.pubYear with
    | none => rfl
    | some ys =>
      by_cases hys : ys = ""
      · subst hys
        simp only [if_pos rfl, Option.some_bind]
        decide
      · simp [hys]
  have htype : (match s.type with
      | some t => if t = "" then "UNKNOWN" else replaceUnderscores t
      | none => "UNKNOWN") = ((normFalsy s.type).map replaceUnderscores).getD "UNKNOWN" := by
    cases s.type with
    | none => rfl
    | some t => by_cases ht : t = "" <;> simp [normFalsy, ht]
  have hdoi : (s.externalIds.bind (fun l => l.find? (fun e => e.idType == "doi"))).map
        (fun e => e.idValue)
      = ((s.externalIds.getD []).find? (fun e => e.idType == "doi")).map
        (fun e => e.idValue) := by
    cases s.externalIds with
    | none => rfl
    | some l => rfl
  simp only [summaryToWork, amendedSummaryToWork]
  rw [OrcidWork.mk.injEq]
  exact ⟨htitle, hyear, congrArg some htype, rfl, hdoi⟩

/-- Mapping all groups succeeds, group by group, when every group carries
at least one summary. -/
theorem mapGroups_eq_of_head (groups : List WorkGroup)
    (hg : ∀ g ∈ groups, ∃ s rest, g.workSummary = some (s :: rest)) :
    mapGroups groups = some (groups.map (fun g => summaryToWork (headSummary g))) := by
  induction groups with
  | nil => rfl
  | cons g gs ih =>
    rcases hg g (by simp) with ⟨s, rest, hgs⟩
    have hih := ih (fun g' hmem => hg g' (by simp [hmem]))
    have h1 : mapGroup g = some (summaryToWork s) := by simp [mapGroup, hgs]
    have h2 : headSummary g = s := by simp [headSummary, hgs]
    simp [mapGroups, h1, hih, h2]

/-- Claim C8 (amended): on a successful response whose work groups each
have a first summary, the fetcher returns, with no delay, the profile for
the trimmed identifier whose works map each group's first summary with:
title defaulting to `"Untitled"` when absent or empty, the year parsed as
an integer when present (else null), the type label with underscores
replaced by spaces and defaulting to `"UNKNOWN"` when absent or empty,
the put-code as local identifier, and the value of the first external id
whose type tag is `"doi"` (absent otherwise). -/
theorem claim_c8_success_mapping_amended :
    (∀ s, summaryToWork s = amendedSummaryToWork s)
    ∧ ∀ (groups : List WorkGroup) (r : MockRand) (input : String),
        (∀ g ∈ groups, ∃ s rest, g.workSummary = some (s :: rest)) →
        fetchOrcidData (FetchOutcome.ok ⟨some groups⟩) r input
          = ({ orcidId := jsTrim input,
               fullName := "Researcher " ++ jsTrim input,
               works := groups.map (fun g => amendedSummaryToWork (headSummary g)) }, 0) := by
  refine ⟨summaryToWork_eq_amended, ?_⟩
  intro groups r input hg
  have hmap := mapGroups_eq_of_head groups hg
  have hswap : groups.map (fun g => summaryToWork (headSummary g))
      = groups.map (fun g => amendedSummaryToWork (headSummary g)) :=
    List.map_congr_left (fun g _ => summaryToWork_eq_amended (headSummary g))
  simp [fetchOrcidData, hmap, hswap]

/-- Witness for claim C8 at a concrete successful response. -/
theorem claim_c8_success_mapping_amended_witness :
    (∀ g ∈ [WorkGroup.mk (some [exSummaryEmptyTitle])],
        ∃ s rest, g.workSummary = some (s :: rest))
    ∧ fetchOrcidData (FetchOutcome.ok ⟨some [WorkGroup.mk (some [exSummaryEmptyTitle])]⟩)
          mockRandZero " 0000-0002-1825-0097 "
        = ({ orcidId := jsTrim " 0000-0002-1825-0097 ",
             fullName := "Researcher " ++ jsTrim " 0000-0002-1825-0097 ",
             works := [WorkGroup.mk (some [exSummaryEmptyTitle])].map
               (fun g => amendedSummaryToWork (headSummary g)) }, 0) :=
  ⟨by
      intro g hg
      rw [List.mem_singleton] at hg
      subst hg
      exact ⟨exSummaryEmptyTitle, [], rfl⟩,
    claim_c8_success_mapping_amended.2 [WorkGroup.mk (some [exSummaryEmptyTitle])]
      mockRandZero " 0000-0002-1825-0097 "
      (by
        intro g hg
        rw [List.mem_singleton] at hg
        subst hg
        exact ⟨exSummaryEmptyTitle, [], rfl⟩)⟩

/-! Claim theorems for the Batch Orchestrator. -/

theorem batchLoop_calls {ε : Type} (fetchFn : String → Except ε OrcidProfileData) :
    ∀ ids, (batchLoop fetchFn ids).2 = ids := by
  intro ids
  induction ids with
  | nil => rfl
  | cons id rest ih =>
    cases hf : fetchFn id <;> simp [batchLoop, hf, ih]

theorem batchLoop_results {ε : Type} (fetchFn : String → Except ε OrcidProfileData) :
    ∀ ids, (batchLoop fetchFn ids).1
      = ids.filterMap (fun id => (fetchFn id).toOption) := by
  intro ids
  induction ids with
  | nil => rfl
  | cons id rest ih =>
    cases hf : fetchFn id <;>
      simp [batchLoop, hf, ih, List.filterMap_cons, Except.toOption]

/-- Claim C7: on an empty identifier sequence the orchestrator fails with
the empty-batch error before any fetch is attempted (its call trace is
empty); on a non-empty sequence it invokes the fetcher exactly once per
identifier, sequentially in input order (the call trace is the input),
and returns the ordered successes, skipping failed identifiers. -/
theorem claim_c7_batch_orchestrator {ε : Type}
    (fetchFn : String → Except ε OrcidProfileData) (ids : List String) (h : ids ≠ []) :
    (handleBatchAnalyze fetchFn ([] : List String)
        = (Except.error BatchError.emptyBatch, []))
    ∧ (handleBatchAnalyze fetchFn ids).2 = ids
    ∧ (handleBatchAnalyze fetchFn ids).1
        = Except.ok (ids.filterMap (fun id => (fetchFn id).toOption)) := by
  have hlen : ids.length ≠ 0 := fun hc => h (List.length_eq_zero.mp hc)
  refine ⟨rfl, ?_, ?_⟩
  · simp [handleBatchAnalyze, hlen, batchLoop_calls]
  · simp [handleBatchAnalyze, hlen, batchLoop_results]

/-- A concrete fetcher for the C7 witness: fails on one identifier. -/
def witnessFetch : String → Except Unit OrcidProfileData :=
  fun id => if id = "0000-0000-0000-0000" then Except.error ()
            else Except.ok { orcidId := id, fullName := "n", works := [] }

/-- Witness for claim C7 at a concrete identifier list with one failing
fetch. -/
theorem claim_c7_batch_orchestrator_witness :
    ((["0000-0002-1825-0097", "0000-0000-0000-0000"] : List String) ≠ [])
    ∧ ((handleBatchAnalyze witnessFetch ([] : List String)
          = (Except.error BatchError.emptyBatch, []))
      ∧ (handleBatchAnalyze witnessFetch ["0000-0002-1825-0097", "0000-0000-0000-0000"]).2
          = ["0000-0002-1825-0097", "0000-0000-0000-0000"]
      ∧ (handleBatchAnalyze witnessFetch ["0000-0002-1825-0097", "0000-0000-0000-0000"]).1
          = Except.ok ((["0000-0002-1825-0097", "0000-0000-0000-0000"] : List String).filterMap
              (fun id => (witnessFetch id).toOption))) :=
  ⟨by simp, claim_c7_batch_orchestrator witnessFetch _ (by simp)⟩

/-! Claim theorems for the Identifier Extractor's header lookup. -/

/-- Claim C6: a CSV whose header row has no cell equal to `"orcid"` after
lowercasing and trimming fails with the missing-column error; when such a
cell exists, parsing does not fail at the header-lookup step (it returns
an identifier list). -/
theorem claim_c6_missing_column (text : String) :
    ("orcid" ∉ headerCells text → parseCsvFile text = Except.error CsvError.missingColumn)
    ∧ ("orcid" ∈ headerCells text → ∃ ids, parseCsvFile text = Except.ok ids) := by
  constructor
  · intro hno
    have hnone : List.findIdx? (fun h => h == "orcid") (headerCells text) = none := by
      rw [List.findIdx?_eq_none_iff]
      intro x hx
      by_cases hxe : x = "orcid"
      · exact absurd (hxe ▸ hx) hno
      · simp [hxe]
    simp [parseCsvFile, hnone]
  · intro hyes
    cases hidx : List.findIdx? (fun h => h == "orcid") (headerCells text) with
    | none =>
      exfalso
      have hx := List.findIdx?_eq_none_iff.mp hidx "orcid" hyes
      simp at hx
    | some k =>
      refine ⟨extractIds k ((splitLines text).drop 1), ?_⟩
      simp [parseCsvFile, hidx]

/-- Witness for claim C6: a header without an `orcid` cell fails, a header
with `" ORCID "` (case-insensitive, padded) succeeds. -/
theorem claim_c6_missing_column_witness :
    ("orcid" ∉ headerCells "name,id\n0000-0002-1825-0097,A")
    ∧ parseCsvFile "name,id\n0000-0002-1825-0097,A" = Except.error CsvError.missingColumn
    ∧ ("orcid" ∈ headerCells "Name, ORCID \nA,0000-0002-1825-0097")
    ∧ (∃ ids, parseCsvFile "Name, ORCID \nA,0000-0002-1825-0097" = Except.ok ids) :=
  ⟨by decide, (claim_c6_missing_column "name,id\n0000-0002-1825-0097,A").1 (by decide),
    by decide, (claim_c6_missing_column "Name, ORCID \nA,0000-0002-1825-0097").2 (by decide)⟩

/-! Claim theorem for the Chat Context Builder. -/

/-- Claim C9: with no summary, the system instruction is exactly the
instructional preamble; with a summary, it is the preamble followed by a
briefing block that contains the researcher count, the publication count,
the average formatted to one decimal place, and the first three entries
of each histogram formatted as "label (count)" and comma-joined. -/
theorem claim_c9_chat_context :
    (buildSystemInstruction none = basePreamble)
    ∧ (∀ y c, fmtYearEntry (y, c) = toString y ++ " (" ++ toString c ++ ")")
    ∧ (∀ t c, fmtTypeEntry (t, c) = t ++ " (" ++ toString c ++ ")")
    ∧ ∀ s : AnalysisStats,
        buildSystemInstruction (some s) = basePreamble ++ contextBlock s
        ∧ (∃ p q, contextBlock s
            = p ++ ("- Total Researchers Analyzed: " ++ toString s.totalResearchers) ++ q)
        ∧ (∃ p q, contextBlock s
            = p ++ ("- Total Publications: " ++ toString s.totalPublications) ++ q)
        ∧ (∃ p q, contextBlock s
            = p ++ ("- Average Publications per Researcher: "
                ++ jsToFixed1 s.avgPublications) ++ q)
        ∧ (∃ p q, contextBlock s
            = p ++ ("- Top Years: " ++ String.intercalate ", "
                ((s.publicationsByYear.take 3).map fmtYearEntry)) ++ q)
        ∧ (∃ p q, contextBlock s
            = p ++ ("- Top Types: " ++ String.intercalate ", "
                ((s.publicationsByType.take 3).map fmtTypeEntry)) ++ q) := by
  refine ⟨rfl, fun y c => rfl, fun t c => rfl, ?_⟩
  intro s
  refine ⟨rfl, ?_, ?_, ?_, ?_, ?_⟩
  · exact ⟨"\n        \n\nCURRENT DATA CONTEXT:\n        ",
      "\n        "
      ++ ("- Total Publications: " ++ toString s.totalPublications) ++ "\n        "
      ++ ("- Average Publications per Researcher: " ++ jsToFixed1 s.avgPublications) ++ "\n        "
      ++ ("- Top Years: " ++ topYearsLine s) ++ "\n        "
      ++ ("- Top Types: " ++ topTypesLine s)
      ++ "\n        \n        Use this data to answer user questions about the specific analysis currently on screen. Be concise and professional.\n        ",
      by simp [contextBlock, String.append_assoc]⟩
  · exact ⟨"\n        \n\nCURRENT DATA CONTEXT:\n        "
      ++ ("- Total Researchers Analyzed: " ++ toString s.totalResearchers) ++ "\n        ",
      "\n        "
      ++ ("- Average Publications per Researcher: " ++ jsToFixed1 s.avgPublications) ++ "\n        "
      ++ ("- Top Years: " ++ topYearsLine s) ++ "\n        "
      ++ ("- Top Types: " ++ topTypesLine s)
      ++ "\n        \n        Use this data to answer user questions about the specific analysis currently on screen. Be concise and professional.\n        ",
      by simp [contextBlock, String.append_assoc]⟩
  · exact ⟨"\n        \n\nCURRENT DATA CONTEXT:\n        "
      ++ ("- Total Researchers Analyzed: " ++ toString s.totalResearchers) ++ "\n        "
      ++ ("- Total Publications: " ++ toString s.totalPublications) ++ "\n        ",
      "\n        "
      ++ ("- Top Years: " ++ topYearsLine s) ++ "\n        "
      ++ ("- Top Types: " ++ topTypesLine s)
      ++ "\n        \n        Use this data to answer user questions about the specific analysis currently on screen. Be concise and professional.\n        ",
      by simp [contextBlock, String.append_assoc]⟩
  · exact ⟨"\n        \n\nCURRENT DATA CONTEXT:\n        "
      ++ ("- Total Researchers Analyzed: " ++ toString s.totalResearchers) ++ "\n        "
      ++ ("- Total Publications: " ++ toString s.totalPublications) ++ "\n        "
      ++ ("- Average Publications per Researcher: " ++ jsToFixed1 s.avgPublications) ++ "\n        ",
      "\n        "
      ++ ("- Top Types: " ++ topTypesLine s)
      ++ "\n        \n        Use this data to answer user questions about the specific analysis currently on screen. Be concise and professional.\n        ",
      by simp [contextBlock, topYearsLine, String.append_assoc]⟩
  · exact ⟨"\n        \n\nCURRENT DATA CONTEXT:\n        "
      ++ ("- Total Researchers Analyzed: " ++ toString s.totalResearchers) ++ "\n        "
      ++ ("- Total Publications: " ++ toString s.totalPublications) ++ "\n        "
      ++ ("- Average Publications per Researcher: " ++ jsToFixed1 s.avgPublications) ++ "\n        "
      ++ ("- Top Years: " ++ topYearsLine s) ++ "\n        ",
      "\n        \n        Use this data to answer user questions about the specific analysis currently on screen. Be concise and professional.\n        ",
      by simp [contextBlock, topTypesLine, String.append_assoc]⟩

/-! Claim theorems for the Identifier Extractor's acceptance pattern. -/

theorem chompDigits_append {n : Nat} (ds rest : List Char) (hlen : ds.length = n)
    (hdig : ∀ c ∈ ds, c.isDigit = true) :
    chompDigits n (ds ++ rest) = some rest := by
  subst hlen
  induction ds with
  | nil => rfl
  | cons d ds ih =>
    have hd : d.isDigit = true := hdig d (by simp)
    simp only [List.cons_append, List.length_cons, chompDigits, hd, if_true]
    exact ih (fun c hc => hdig c (by simp [hc]))

theorem chompDigits_sound : ∀ {n : Nat} {cs rest : List Char},
    chompDigits n cs = some rest →
    ∃ ds, cs = ds ++ rest ∧ ds.length = n ∧ ∀ c ∈ ds, c.isDigit = true := by
  intro n
  induction n with
  | zero =>
    intro cs rest h
    simp only [chompDigits, Option.some.injEq] at h
    exact ⟨[], by simp [h], rfl, by simp⟩
  | succ n ih =>
    intro cs rest h
    cases cs with
    | nil => simp [chompDigits] at h
    | cons c cs' =>
      by_cases hc : c.isDigit = true
      · simp only [chompDigits, hc, if_true] at h
        rcases ih h with ⟨ds, rfl, hlen, hdig⟩
        refine ⟨c :: ds, rfl, by simp [hlen], ?_⟩
        intro x hx
        rcases List.mem_cons.mp hx with hx0 | hx'
        · rw [hx0]; exact hc
        · exact hdig x hx'
      · simp [chompDigits, hc] at h

theorem matchGroupHyphen_iff (n : Nat) (k : List Char → Bool) (cs : List Char) :
    matchGroupHyphen n k cs = true
    ↔ ∃ ds cs1, cs = ds ++ '-' :: cs1 ∧ ds.length = n
        ∧ (∀ x ∈ ds, x.isDigit = true) ∧ k cs1 = true := by
  constructor
  · intro h
    unfold matchGroupHyphen at h
    split at h
    · rename_i cs1 heq
      rcases chompDigits_sound heq with ⟨ds, rfl, hlen, hdig⟩
      exact ⟨ds, cs1, rfl, hlen, hdig, h⟩
    · exact absurd h (by simp)
  · rintro ⟨ds, cs1, rfl, hlen, hdig, hk⟩
    unfold matchGroupHyphen
    rw [chompDigits_append ds ('-' :: cs1) hlen hdig]
    exact hk

theorem matchTail_iff (cs : List Char) :
    matchTail cs = true
    ↔ ∃ t c, cs = t ++ [c] ∧ t.length = 3 ∧ (∀ x ∈ t, x.isDigit = true)
        ∧ (c.isDigit = true ∨ c = 'X') := by
  constructor
  · intro h
    unfold matchTail at h
    split at h
    · rename_i c heq
      rcases chompDigits_sound heq with ⟨t, rfl, hlen, hdig⟩
      refine ⟨t, c, rfl, hlen, hdig, ?_⟩
      simpa using h
    · exact absurd h (by simp)
  · rintro ⟨t, c, rfl, hlen, hdig, hc⟩
    unfold matchTail
    rw [chompDigits_append t [c] hlen hdig]
    simpa using hc

theorem orcidRegexAccepts_iff (cs : List Char) :
    orcidRegexAccepts cs = true
    ↔ ∃ g1 g2 g3 t c,
        cs = g1 ++ '-' :: (g2 ++ '-' :: (g3 ++ '-' :: (t ++ [c])))
        ∧ g1.length = 4 ∧ (∀ x ∈ g1, x.isDigit = true)
        ∧ g2.length = 4 ∧ (∀ x ∈ g2, x.isDigit = true)
        ∧ g3.length = 4 ∧ (∀ x ∈ g3, x.isDigit = true)
        ∧ t.length = 3 ∧ (∀ x ∈ t, x.isDigit = true)
        ∧ (c.isDigit = true ∨ c = 'X') := by
  unfold orcidRegexAccepts
  rw [matchGroupHyphen_iff]
  constructor
  · rintro ⟨g1, cs1, rfl, h1l, h1d, h1⟩
    rw [matchGroupHyphen_iff] at h1
    rcases h1 with ⟨g2, cs2, rfl, h2l, h2d, h2⟩
    rw [matchGroupHyphen_iff] at h2
    rcases h2 with ⟨g3, cs3, rfl, h3l, h3d, h3⟩
    rw [matchTail_iff] at h3
    rcases h3 with ⟨t, c, rfl, htl, htd, hc⟩
    exact ⟨g1, g2, g3, t, c, rfl, h1l, h1d, h2l, h2d, h3l, h3d, htl, htd, hc⟩
  · rintro ⟨g1, g2, g3, t, c, rfl, h1l, h1d, h2l, h2d, h3l, h3d, htl, htd, hc⟩
    exact ⟨g1, _, rfl, h1l, h1d,
      (matchGroupHyphen_iff _ _ _).mpr ⟨g2, _, rfl, h2l, h2d,
        (matchGroupHyphen_iff _ _ _).mpr ⟨g3, _, rfl, h3l, h3d,
          (matchTail_iff _).mpr ⟨t, c, rfl, htl, htd, hc⟩⟩⟩⟩

theorem intercalate_four (a b c d : List Char) :
    ([( '-' )] : List Char).intercalate [a, b, c, d]
      = a ++ '-' :: (b ++ '-' :: (c ++ '-' :: d)) := by
  simp [List.intercalate, List.intersperse]

theorem isDigit_ne_hyphen {x : Char} (h : x.isDigit = true) : ¬((x == '-') = true) := by
  intro hx
  rw [beq_iff_eq] at hx
  subst hx
  exact absurd h (by decide)

theorem lastChar_ne_hyphen {c : Char} (h : c.isDigit = true ∨ c = 'X') :
    ¬((c == '-') = true) := by
  intro hx
  rw [beq_iff_eq] at hx
  subst hx
  rcases h with h | h
  · exact absurd h (by decide)
  · exact absurd h (by decide)

theorem structuralPatternAmended_iff (s : String) :
    structuralPatternAmended s = true
    ↔ ∃ g1 g2 g3 t c,
        s.data = g1 ++ '-' :: (g2 ++ '-' :: (g3 ++ '-' :: (t ++ [c])))
        ∧ g1.length = 4 ∧ (∀ x ∈ g1, x.isDigit = true)
        ∧ g2.length = 4 ∧ (∀ x ∈ g2, x.isDigit = true)
        ∧ g3.length = 4 ∧ (∀ x ∈ g3, x.isDigit = true)
        ∧ t.length = 3 ∧ (∀ x ∈ t, x.isDigit = true)
        ∧ (c.isDigit = true ∨ c = 'X') := by
  constructor
  · intro h
    unfold structuralPatternAmended at h
    split at h
    · rename_i g1 g2 g3 g4 heq
      simp only [Bool.and_eq_true, decide_eq_true_eq] at h
      rcases h with ⟨⟨⟨⟨⟨hl1, hl2⟩, hl3⟩, hl4⟩, hall⟩, hlast⟩
      simp only [List.all_append, Bool.and_eq_true, List.all_eq_true] at hall
      obtain ⟨⟨⟨hd1, hd2⟩, hd3⟩, hd4⟩ := hall
      split at hlast
      · rename_i c hc4
        have hg4ne : g4 ≠ [] := by
          intro hnil
          rw [hnil] at hc4
          simp at hc4
        have hg4 : g4.dropLast ++ [g4.getLast hg4ne] = g4 :=
          List.dropLast_append_getLast hg4ne
        have hclast : g4.getLast hg4ne = c := by
          have hgl := List.getLast?_eq_getLast g4 hg4ne
          rw [hgl] at hc4
          exact Option.some.inj hc4
        have htl : g4.dropLast.length = 3 := by
          rw [List.length_dropLast, hl4]
        have htake : g4.take 3 = g4.dropLast := by
          rw [List.dropLast_eq_take, hl4]
        have hsdata : s.data = g1 ++ '-' :: (g2 ++ '-' :: (g3 ++ '-' :: g4)) := by
          have h0 := List.intercalate_splitOn s.data '-'
          rw [heq, intercalate_four] at h0
          exact h0.symm
        refine ⟨g1, g2, g3, g4.dropLast, c, ?_, hl1, hd1, hl2, hd2, hl3, hd3, htl, ?_,
          by simpa using hlast⟩
        · rw [hsdata, ← hclast, hg4]
        · rw [← htake]
          exact hd4
      · exact absurd hlast (by simp)
    · exact absurd h (by simp)
  · rintro ⟨g1, g2, g3, t, c, hdata, hl1, hd1, hl2, hd2, hl3, hd3, htl, htd, hc⟩
    unfold structuralPatternAmended
    have hsingle : (t ++ [c]).splitOnP (fun x => x == '-') = [t ++ [c]] := by
      refine List.splitOnP_eq_single _ _ ?_
      intro x hx
      rcases List.mem_append.mp hx with hx' | hx'
      · exact isDigit_ne_hyphen (htd x hx')
      · rw [List.mem_singleton.mp hx']
        exact lastChar_ne_hyphen hc
    have hsplit : s.data.splitOn '-' = [g1, g2, g3, t ++ [c]] := by
      rw [hdata]
      show (g1 ++ '-' :: (g2 ++ '-' :: (g3 ++ '-' :: (t ++ [c])))).splitOnP (fun x => x == '-')
        = [g1, g2, g3, t ++ [c]]
      rw [List.splitOnP_first _ _ (fun x hx => isDigit_ne_hyphen (hd1 x hx)) '-' (by simp) _]
      rw [List.splitOnP_first _ _ (fun x hx => isDigit_ne_hyphen (hd2 x hx)) '-' (by simp) _]
      rw [List.splitOnP_first _ _ (fun x hx => isDigit_ne_hyphen (hd3 x hx)) '-' (by simp) _]
      rw [hsingle]
    rw [hsplit]
    have htake : (t ++ [c]).take 3 = t := by
      rw [← htl]
      exact List.take_left t [c]
    simp only [List.getLast?_concat, List.all_append, Bool.and_eq_true, decide_eq_true_eq,
      List.all_eq_true, htake]
    refine ⟨⟨⟨⟨⟨hl1, hl2⟩, hl3⟩, by simp [htl]⟩, ⟨⟨hd1, hd2⟩, hd3⟩, htd⟩, by simpa using hc⟩

theorem valid_eq_amended (s : String) : isValidOrcid s = structuralPatternAmended s := by
  unfold isValidOrcid
  rw [Bool.eq_iff_iff]
  exact (orcidRegexAccepts_iff s.data).trans (structuralPatternAmended_iff s).symm

theorem extractIds_eq_filterMap (k : Nat) (lines : List String) :
    extractIds k lines = lines.filterMap (fun line =>
      if k < (jsSplit ',' line).length
          ∧ structuralPatternAmended (jsTrim ((jsSplit ',' line).getD k "")) = true
      then some (jsTrim ((jsSplit ',' line).getD k ""))
      else none) := by
  induction lines with
  | nil => rfl
  | cons line rest ih =>
    simp only [List.filterMap_cons]
    have hv := valid_eq_amended (jsTrim ((jsSplit ',' line).getD k ""))
    by_cases hk : k < (jsSplit ',' line).length
    · by_cases hok : structuralPatternAmended (jsTrim ((jsSplit ',' line).getD k "")) = true
      · have hval : isValidOrcid (jsTrim ((jsSplit ',' line).getD k "")) = true := by
          rw [hv]; exact hok
        rw [if_pos ⟨hk, hok⟩]
        have hleft : extractIds k (line :: rest)
            = jsTrim ((jsSplit ',' line).getD k "") :: extractIds k rest := by
          simp only [extractIds]
          rw [if_pos hk, hval]
          simp
        rw [hleft, ih]
      · have hok' : structuralPatternAmended (jsTrim ((jsSplit ',' line).getD k "")) = false :=
          eq_false_of_ne_true hok
        have hval : isValidOrcid (jsTrim ((jsSplit ',' line).getD k "")) = false := by
          rw [hv]; exact hok'
        rw [if_neg (fun hcon => hok hcon.2)]
        have hleft : extractIds k (line :: rest) = extractIds k rest := by
          simp only [extractIds]
          rw [if_pos hk, hval]
          simp
        rw [hleft, ih]
    · rw [if_neg (fun hcon => hk hcon.1)]
      have hleft : extractIds k (line :: rest) = extractIds k rest := by
        simp only [extractIds]
        rw [if_neg hk]
        simp
      rw [hleft, ih]

/-- Counterexample to claim C3 as stated: `"0000-0000-0000-XX0X"` has four
hyphen-separated groups of four characters, its first twelve group
characters are digits, and its final character is `'X'` — so it matches
the claim's structural pattern read literally — yet the source regex
requires the three characters before the final one to be digits too, so
the extractor rejects it. -/
theorem claim_c3_counterexample :
    claimStructuralPattern "0000-0000-0000-XX0X" = true
    ∧ isValidOrcid "0000-0000-0000-XX0X" = false
    ∧ extractIds 0 ["0000-0000-0000-XX0X"] = [] := by
  refine ⟨by decide, by decide, by decide⟩

/-- Claim C3 (amended): once the identifier column is found, a candidate
cell is accepted (after trimming) exactly when it matches the amended
structural pattern — four hyphen-separated groups of four characters
whose first fifteen group characters are digits and whose final character
is a digit or `'X'` — and the extractor returns, in file order with
duplicates retained, exactly the accepted trimmed cells, rows with no
cell at the identifier index contributing nothing (and raising no
error, the row loop being total). -/
theorem claim_c3_extractor_amended :
    (∀ s, isValidOrcid s = structuralPatternAmended s)
    ∧ (∀ (k : Nat) (lines : List String), extractIds k lines = lines.filterMap (fun line =>
        if k < (jsSplit ',' line).length
            ∧ structuralPatternAmended (jsTrim ((jsSplit ',' line).getD k "")) = true
        then some (jsTrim ((jsSplit ',' line).getD k ""))
        else none)) :=
  ⟨valid_eq_amended, extractIds_eq_filterMap⟩
